import Mathlib

/-!
Verification development for `src/offchain/offchain-utils.ts` of the eas-sdk
repository: the version-aware compaction/decompaction of signed offchain
attestation packages and the associated compression/encoding pipeline.

Modelling conventions:
* TypeScript `bigint` and integral `number` values are modelled as `Int`.
  The lossy `Number(bigint)` coercion is modelled by `jsNumberOfBigint`,
  which rounds to the nearest IEEE double (exact on the safe-integer range).
* Optional / possibly-`undefined` / possibly-`null` JavaScript values are
  modelled by `JsOpt`.
* The JSON text layer is modelled at the JSON-value level (`Json`):
  `JSON.stringify` with the bigint replacer becomes `wireOf`, and
  `JSON.parse` becomes `parseTuple`.  The external `pako` (deflate/inflate)
  and `js-base64` libraries are not part of this repository; they are
  abstracted as an arbitrary pair of mutually inverse functions.
-/

/-- A JavaScript value of type `α` that may also be `undefined` or `null`. -/
inductive JsOpt (α : Type) where
  | undef
  | null
  | val (x : α)
deriving DecidableEq

/-- Modelled from the spec: the `OffchainAttestationVersion` tag of the companion
`./offchain` module (not among the provided sources).  The spec's Legacy tag;
it is the falsy number `0`, consistent with "version = tuple slot 16 if truthy,
else the Legacy tag". -/
def OffchainAttestationVersion.Legacy : Int := 0

/-- Modelled from the spec: the V1 version tag (flat legacy-V1 packages are
normalized to this tag). -/
def OffchainAttestationVersion.Version1 : Int := 1

/-- Modelled from the spec: the V2 version tag (packages carrying a `salt`). -/
def OffchainAttestationVersion.Version2 : Int := 2

/-- `ZeroAddress` constant from `ethers`: the 20-byte zero address. -/
def ZeroAddress : String := "0x0000000000000000000000000000000000000000"

/-- `ZeroHash` constant from `ethers`: the 32-byte zero hash. -/
def ZeroHash : String := "0x0000000000000000000000000000000000000000000000000000000000000000"

/-- One entry of an EIP712 typed-data field list (`name`/`type` pair). -/
structure TypedDataField where
  name : String
  type : String
deriving DecidableEq

/-- The EIP712 signing domain of a signed offchain attestation. -/
structure EIP712Domain where
  name : String
  version : String
  chainId : Int
  verifyingContract : String
deriving DecidableEq

/-- An ECDSA signature in its nested `{r, s, v}` shape. -/
structure Eip712Signature where
  r : String
  s : String
  v : Int
deriving DecidableEq

/-- The attestation message.  `version` is optional (absent on Legacy
packages) and `salt` is optional (present from V2 onward); both may also be
`null` after a JSON round trip. -/
structure OffchainAttestationMessage where
  version : JsOpt Int
  schema : String
  recipient : String
  time : Int
  expirationTime : Int
  revocable : Bool
  refUID : String
  data : String
  salt : JsOpt String
deriving DecidableEq

/-- `SignedOffchainAttestation` (current nested shape).  `types` models the
`Attest` entry of the `EIP712MessageTypes` record. -/
structure SignedOffchainAttestation where
  version : Int
  domain : EIP712Domain
  primaryType : String
  types : List TypedDataField
  signature : Eip712Signature
  uid : String
  message : OffchainAttestationMessage
deriving DecidableEq

/-- `SignedOffchainAttestationV1`: the flat legacy shape, i.e.
`Omit<SignedOffchainAttestation, 'signature' | 'version'>` extended with
top-level `r`, `s`, `v`. -/
structure SignedOffchainAttestationV1 where
  domain : EIP712Domain
  primaryType : String
  types : List TypedDataField
  uid : String
  message : OffchainAttestationMessage
  r : String
  s : String
  v : Int
deriving DecidableEq

/-- The union `SignedOffchainAttestation | SignedOffchainAttestationV1`
appearing in the source, as an explicit sum: a nested-signature object has no
top-level `v`/`r`/`s` keys, a flat one does. -/
inductive SigShape where
  | nested (a : SignedOffchainAttestation)
  | flat (a : SignedOffchainAttestationV1)
deriving DecidableEq

/-- `AttestationShareablePackageObject`: signed typed data plus signer. -/
structure AttestationShareablePackageObject where
  sig : SigShape
  signer : String
deriving DecidableEq

/-- The `chainId` tuple slot is a `bigint` when produced by the compactor and
a decimal string after a JSON round trip (the stringify replacer turns every
`bigint` into its decimal string). -/
inductive BigintSlot where
  | big (i : Int)
  | str (s : String)
deriving DecidableEq

/-- `CompactAttestationShareablePackageObject`: the fixed 18-slot tuple.
Fields appear in tuple-slot order (slots 0 to 17). -/
structure CompactAttestationShareablePackageObject where
  contractVersion : String
  chainId : BigintSlot
  verifyingContract : String
  r : String
  s : String
  v : Int
  signer : String
  uid : String
  schema : String
  recipient : String
  time : Int
  expirationTime : Int
  refUID : String
  revocable : Bool
  data : String
  reserved : Int
  offchainVersion : JsOpt Int
  salt : JsOpt String
deriving DecidableEq

/-- `MAX_SAFE_INTEGER`: the largest integer exactly representable as an IEEE
double, the boundary of the documented lossy `Number(bigint)` coercion. -/
def MAX_SAFE_INTEGER : Int := 2 ^ 53 - 1

/-- Round a natural number to the nearest IEEE double value (round half to
even on the 2^(bits-53) spacing); the identity on the safe range. -/
def roundToDouble (n : Nat) : Nat :=
  if n ≤ 2 ^ 53 then n
  else
    let k := n.log2 + 1 - 53
    let q := n / 2 ^ k
    let r := n % 2 ^ k
    if 2 * r > 2 ^ k ∨ (2 * r = 2 ^ k ∧ q % 2 = 1) then (q + 1) * 2 ^ k else q * 2 ^ k

/-- The TypeScript `Number(bigint)` coercion applied to time fields: rounds
to the nearest double, hence the identity exactly-safe-range behaviour. -/
def jsNumberOfBigint (i : Int) : Int :=
  if i < 0 then -(roundToDouble i.natAbs : Int) else (roundToDouble i.natAbs : Int)

/-- `isSignedOffchainAttestationV1`: `'v' in attestation && 'r' in attestation
&& 's' in attestation` — true exactly for the flat shape, which is the only
shape carrying top-level `v`/`r`/`s` keys. -/
def isSignedOffchainAttestationV1 : SigShape → Bool
  | .nested _ => false
  | .flat _ => true

/-- `convertV1AttestationToV2`: spread the flat object minus `v`/`r`/`s`,
set `version` to the V1 tag and nest the signature. -/
def convertV1AttestationToV2 (attestation : SignedOffchainAttestationV1) :
    SignedOffchainAttestation :=
  { version := OffchainAttestationVersion.Version1
    domain := attestation.domain
    primaryType := attestation.primaryType
    types := attestation.types
    uid := attestation.uid
    message := attestation.message
    signature := { r := attestation.r, s := attestation.s, v := attestation.v } }

/-- The `let sig = pkg.sig; if (isSignedOffchainAttestationV1(sig)) sig =
convertV1AttestationToV2(sig)` prelude of the compactor. -/
def normalizedSig : SigShape → SignedOffchainAttestation
  | .nested a => a
  | .flat a => convertV1AttestationToV2 a

/-- The message of a package, reachable the same way the compactor reaches it
(conversion of a flat package preserves the message unchanged). -/
def packageMessage (pkg : AttestationShareablePackageObject) : OffchainAttestationMessage :=
  (normalizedSig pkg.sig).message

/-- `compactOffchainAttestationPackage`: the Compactor. -/
def compactOffchainAttestationPackage (pkg : AttestationShareablePackageObject) :
    CompactAttestationShareablePackageObject :=
  let sig := normalizedSig pkg.sig
  { contractVersion := sig.domain.version
    chainId := .big sig.domain.chainId
    verifyingContract := sig.domain.verifyingContract
    r := sig.signature.r
    s := sig.signature.s
    v := sig.signature.v
    signer := pkg.signer
    uid := sig.uid
    schema := sig.message.schema
    recipient := if sig.message.recipient = ZeroAddress then "0" else sig.message.recipient
    time := jsNumberOfBigint sig.message.time
    expirationTime := jsNumberOfBigint sig.message.expirationTime
    refUID := if sig.message.refUID = ZeroHash then "0" else sig.message.refUID
    revocable := sig.message.revocable
    data := sig.message.data
    reserved := 0
    offchainVersion := sig.message.version
    salt := sig.message.salt }

/-- `compacted[16] ? compacted[16] : OffchainAttestationVersion.Legacy`:
`undefined`, `null` and the number `0` are falsy. -/
def resolveVersion (slot : JsOpt Int) : Int :=
  match slot with
  | .val n => if n = 0 then OffchainAttestationVersion.Legacy else n
  | _ => OffchainAttestationVersion.Legacy

/-- JavaScript truthiness of the version slot. -/
def JsOpt.truthy : JsOpt Int → Bool
  | .val n => decide (n ≠ 0)
  | _ => false

/-- The leading `version` field prepended for V1/V2. -/
def versionField : TypedDataField := { name := "version", type := "uint16" }

/-- The trailing `salt` field appended for V2. -/
def saltField : TypedDataField := { name := "salt", type := "bytes32" }

/-- The base 7-field `Attest` field list built at the top of the
decompactor. -/
def baseAttestTypes : List TypedDataField :=
  [{ name := "schema", type := "bytes32" },
   { name := "recipient", type := "address" },
   { name := "time", type := "uint64" },
   { name := "expirationTime", type := "uint64" },
   { name := "revocable", type := "bool" },
   { name := "refUID", type := "bytes32" },
   { name := "data", type := "bytes" }]

/-- The `switch (version)` of the decompactor: Legacy keeps the base list,
V1 prepends the `version` field, V2 additionally appends the `salt` field,
and any other value throws `Unsupported version: ${version}`. -/
def attestTypesFor (version : Int) : Except String (List TypedDataField) :=
  if version = OffchainAttestationVersion.Legacy then .ok baseAttestTypes
  else if version = OffchainAttestationVersion.Version1 then
    .ok (versionField :: baseAttestTypes)
  else if version = OffchainAttestationVersion.Version2 then
    .ok ((versionField :: baseAttestTypes) ++ [saltField])
  else .error ("Unsupported version: " ++ toString version)

/-- Decimal digit character (`'0'` + d). -/
def decDigitChar (d : Nat) : Char := Char.ofNat (48 + d)

/-- Little-endian base-10 digits, with explicit fuel (`fuel ≥ n` suffices). -/
def leDigits : Nat → Nat → List Nat
  | 0, _ => []
  | fuel + 1, n => if n = 0 then [] else n % 10 :: leDigits fuel (n / 10)

/-- The decimal numeral of a natural number, as produced by JavaScript
`String(bigint)` / `bigint.toString()`. -/
def decStrOfNat (n : Nat) : String :=
  if n = 0 then "0" else String.mk ((leDigits n n).reverse.map decDigitChar)

/-- The decimal numeral of a `bigint` (possibly negative). -/
def decStrOfBigint (i : Int) : String :=
  if i < 0 then String.mk ('-' :: (decStrOfNat i.natAbs).data) else decStrOfNat i.natAbs

/-- Value of a big-endian list of decimal digit characters. -/
def decNatOfChars (l : List Char) : Nat :=
  l.foldl (fun acc c => 10 * acc + (c.toNat - 48)) 0

/-- Value of a little-endian list of decimal digits. -/
def decVal : List Nat → Nat
  | [] => 0
  | d :: t => d + 10 * decVal t

/-- JavaScript `BigInt(string)` on the decimal numerals this pipeline
produces (empty string is `0n`, a leading `'-'` negates). -/
def jsBigIntOfString (s : String) : Int :=
  match s.data with
  | [] => 0
  | c :: rest => if c = '-' then -(decNatOfChars rest : Int) else (decNatOfChars (c :: rest) : Int)

/-- JavaScript `BigInt(x)` on the chainId slot: the identity on a `bigint`,
decimal parsing on a string. -/
def jsBigInt : BigintSlot → Int
  | .big i => i
  | .str s => jsBigIntOfString s

/-- `uncompactOffchainAttestationPackage`: the Decompactor.  Failure of the
`switch` default branch (`throw new Error(...)`) is modelled by `Except`. -/
def uncompactOffchainAttestationPackage (compacted : CompactAttestationShareablePackageObject) :
    Except String AttestationShareablePackageObject :=
  let version := resolveVersion compacted.offchainVersion
  match attestTypesFor version with
  | .error e => .error e
  | .ok attestTypes =>
    .ok
      { sig := .nested
          { version := version
            domain :=
              { name := "EAS Attestation"
                version := compacted.contractVersion
                chainId := jsBigInt compacted.chainId
                verifyingContract := compacted.verifyingContract }
            primaryType :=
              if version = OffchainAttestationVersion.Legacy then "Attestation" else "Attest"
            types := attestTypes
            signature := { r := compacted.r, s := compacted.s, v := compacted.v }
            uid := compacted.uid
            message :=
              { version := .val version
                schema := compacted.schema
                recipient := if compacted.recipient = "0" then ZeroAddress else compacted.recipient
                time := compacted.time
                expirationTime := compacted.expirationTime
                refUID := if compacted.refUID = "0" then ZeroHash else compacted.refUID
                revocable := compacted.revocable
                data := compacted.data
                salt := compacted.salt } }
        signer := compacted.signer }

/-- A JSON value, as far as this wire format needs one. -/
inductive Json where
  | null
  | bool (b : Bool)
  | num (n : Int)
  | str (s : String)
deriving DecidableEq

/-- The stringify replacer applied to the chainId slot: a `bigint` becomes
its decimal string. -/
def jsonOfBigintSlot : BigintSlot → Json
  | .big i => .str (decStrOfBigint i)
  | .str s => .str s

/-- JSON serialization of an optional numeric array element:
`JSON.stringify` turns `undefined` array elements into `null`. -/
def jsonOfOptInt : JsOpt Int → Json
  | .undef => .null
  | .null => .null
  | .val n => .num n

/-- JSON serialization of an optional string array element. -/
def jsonOfOptStr : JsOpt String → Json
  | .undef => .null
  | .null => .null
  | .val s => .str s

/-- `JSON.stringify(compacted, bigint-replacer)` at the JSON-value level:
the serialized wire form of a compact tuple. -/
def wireOf (c : CompactAttestationShareablePackageObject) : List Json :=
  [.str c.contractVersion, jsonOfBigintSlot c.chainId, .str c.verifyingContract,
   .str c.r, .str c.s, .num c.v, .str c.signer, .str c.uid, .str c.schema,
   .str c.recipient, .num c.time, .num c.expirationTime, .str c.refUID,
   .bool c.revocable, .str c.data, .num c.reserved, jsonOfOptInt c.offchainVersion,
   jsonOfOptStr c.salt]

/-- Reading a parsed JSON value where the code expects a string. -/
def asString : Json → String
  | .str s => s
  | _ => ""

/-- Reading a parsed JSON value where the code expects a number. -/
def asInt : Json → Int
  | .num n => n
  | _ => 0

/-- Reading a parsed JSON value where the code expects a boolean. -/
def asBool : Json → Bool
  | .bool b => b
  | _ => false

/-- Reading a parsed JSON value in the chainId slot (a decimal string on the
wire). -/
def asBigintSlot : Json → BigintSlot
  | .str s => .str s
  | .num n => .big n
  | _ => .big 0

/-- Reading a parsed JSON value in the optional version slot. -/
def asOptInt : Json → JsOpt Int
  | .num n => .val n
  | _ => .null

/-- Reading a parsed JSON value in the optional salt slot. -/
def asOptStr : Json → JsOpt String
  | .str s => .val s
  | _ => .null

/-- `JSON.parse` of the wire array, back into a compact tuple. -/
def parseTuple (l : List Json) : CompactAttestationShareablePackageObject :=
  { contractVersion := asString (l.getD 0 .null)
    chainId := asBigintSlot (l.getD 1 .null)
    verifyingContract := asString (l.getD 2 .null)
    r := asString (l.getD 3 .null)
    s := asString (l.getD 4 .null)
    v := asInt (l.getD 5 .null)
    signer := asString (l.getD 6 .null)
    uid := asString (l.getD 7 .null)
    schema := asString (l.getD 8 .null)
    recipient := asString (l.getD 9 .null)
    time := asInt (l.getD 10 .null)
    expirationTime := asInt (l.getD 11 .null)
    refUID := asString (l.getD 12 .null)
    revocable := asBool (l.getD 13 .null)
    data := asString (l.getD 14 .null)
    reserved := asInt (l.getD 15 .null)
    offchainVersion := asOptInt (l.getD 16 .null)
    salt := asOptStr (l.getD 17 .null) }

/-- `zipAndEncodeToBase64`.  The external deflate+base64 stage (`pako` /
`js-base64`, not part of this repository) is abstracted as a function
`deflateAndEncode` out of the JSON-value wire form. -/
def zipAndEncodeToBase64 {α : Type} (deflateAndEncode : List Json → α)
    (pkg : AttestationShareablePackageObject) : α :=
  deflateAndEncode (wireOf (compactOffchainAttestationPackage pkg))

/-- `decodeBase64ZippedBase64`, with the inverse external stage abstracted
as `decodeAndInflate`. -/
def decodeBase64ZippedBase64 {α : Type} (decodeAndInflate : α → List Json) (base64 : α) :
    Except String AttestationShareablePackageObject :=
  uncompactOffchainAttestationPackage (parseTuple (decodeAndInflate base64))

deriving instance DecidableEq for Except

/-! ### Concrete sample data used by witnesses and counterexamples -/

/-- A sample EIP712 signing domain (chainId 1). -/
def sampleDomain : EIP712Domain :=
  { name := "EAS Attestation"
    version := "0.26"
    chainId := 1
    verifyingContract := "0xC2679fBD37d54388Ce493F1DB75320D236e1815e" }

/-- A sample nested signature. -/
def sampleSignature : Eip712Signature :=
  { r := "0xb828856925ecab4b2e5e655ee5a03e1a2cbbcefb24f01b5b8c1f1c4f2e34f0f2"
    s := "0x177160a084dfaeb3fe187f88f8a2e3bff83a0a8b7e9a6adfbb6f0b6a1a3d6f2a"
    v := 28 }

/-- A sample signer address. -/
def sampleSigner : String := "0x8f80b8f45cA0F036da46fFA4D9e5e42D086fB302"

/-- A sample attestation uid. -/
def sampleUid : String :=
  "0x854d8e26b2bbdc3577fc78c6d2f512258fcbb68137e7aeac2b7dc7d9b5b2a314"

/-- A Legacy-generation message: zero-address recipient, zero-hash refUID,
and no `version`/`salt` field at all. -/
def legacyMessage : OffchainAttestationMessage :=
  { version := .undef
    schema := ZeroHash
    recipient := ZeroAddress
    time := 1000
    expirationTime := 0
    revocable := true
    refUID := ZeroHash
    data := "0x1234"
    salt := .undef }

/-- A Legacy signed package exactly as the data model describes one: its
message predates the `version` and `salt` fields. -/
def legacyPackage : AttestationShareablePackageObject :=
  { sig := .nested
      { version := OffchainAttestationVersion.Legacy
        domain := sampleDomain
        primaryType := "Attestation"
        types := baseAttestTypes
        signature := sampleSignature
        uid := sampleUid
        message := legacyMessage }
    signer := sampleSigner }

/-- A canonical V1 attestation (message carries the V1 tag explicitly). -/
def canonicalV1Attestation : SignedOffchainAttestation :=
  { version := OffchainAttestationVersion.Version1
    domain := sampleDomain
    primaryType := "Attest"
    types := versionField :: baseAttestTypes
    signature := sampleSignature
    uid := sampleUid
    message := { legacyMessage with version := .val OffchainAttestationVersion.Version1 } }

/-- A canonical Legacy attestation with an explicit `version := 0` in the
message but no salt (the message value `undefined`). -/
def canonicalLegacyAttestation : SignedOffchainAttestation :=
  { version := OffchainAttestationVersion.Legacy
    domain := sampleDomain
    primaryType := "Attestation"
    types := baseAttestTypes
    signature := sampleSignature
    uid := sampleUid
    message := { legacyMessage with version := .val OffchainAttestationVersion.Legacy } }

/-- A canonical V2 attestation carrying a 32-byte salt. -/
def canonicalV2Attestation : SignedOffchainAttestation :=
  { version := OffchainAttestationVersion.Version2
    domain := sampleDomain
    primaryType := "Attest"
    types := (versionField :: baseAttestTypes) ++ [saltField]
    signature := sampleSignature
    uid := sampleUid
    message :=
      { version := .val OffchainAttestationVersion.Version2
        schema := ZeroHash
        recipient := "0x1e3de6aE412cA218FD2ae3379750388D414532dc"
        time := 1000
        expirationTime := 0
        revocable := true
        refUID := ZeroHash
        data := "0x1234"
        salt := .val "0xabcdabcdabcdabcdabcdabcdabcdabcdabcdabcdabcdabcdabcdabcdabcdabcd" } }

/-- A flat (top-level `r`/`s`/`v`) package whose message has no `version`
field. -/
def flatNoVersionAttestation : SignedOffchainAttestationV1 :=
  { domain := sampleDomain
    primaryType := "Attest"
    types := versionField :: baseAttestTypes
    uid := sampleUid
    message := legacyMessage
    r := sampleSignature.r
    s := sampleSignature.s
    v := 28 }

/-- A flat package whose message carries the V1 tag, as a genuine V1-era
signed attestation does. -/
def flatV1Attestation : SignedOffchainAttestationV1 :=
  { flatNoVersionAttestation with
    message := { legacyMessage with version := .val OffchainAttestationVersion.Version1 } }

/-- A Legacy compact tuple: falsy (absent) slot 16, sentinel `"0"` slots. -/
def sampleLegacyTuple : CompactAttestationShareablePackageObject :=
  { contractVersion := "0.26"
    chainId := .big 1
    verifyingContract := "0xC2679fBD37d54388Ce493F1DB75320D236e1815e"
    r := sampleSignature.r
    s := sampleSignature.s
    v := 28
    signer := sampleSigner
    uid := sampleUid
    schema := ZeroHash
    recipient := "0"
    time := 1000
    expirationTime := 0
    refUID := "0"
    revocable := true
    data := "0x1234"
    reserved := 0
    offchainVersion := .undef
    salt := .undef }

/-- The decompaction of `sampleLegacyTuple`, written out in full. -/
def sampleLegacyDecoded : AttestationShareablePackageObject :=
  { sig := .nested
      { version := 0
        domain :=
          { name := "EAS Attestation"
            version := "0.26"
            chainId := 1
            verifyingContract := "0xC2679fBD37d54388Ce493F1DB75320D236e1815e" }
        primaryType := "Attestation"
        types := baseAttestTypes
        signature := { r := sampleSignature.r, s := sampleSignature.s, v := 28 }
        uid := sampleUid
        message :=
          { version := .val 0
            schema := ZeroHash
            recipient := ZeroAddress
            time := 1000
            expirationTime := 0
            revocable := true
            refUID := ZeroHash
            data := "0x1234"
            salt := .undef } }
    signer := sampleSigner }

/-- A V2 compact tuple: slot 16 is the V2 tag, slot 17 a 32-byte salt. -/
def sampleV2Tuple : CompactAttestationShareablePackageObject :=
  { sampleLegacyTuple with
    offchainVersion := .val OffchainAttestationVersion.Version2
    salt := .val "0xabcdabcdabcdabcdabcdabcdabcdabcdabcdabcdabcdabcdabcdabcdabcdabcd" }

/-- A tuple whose slot 16 is the unrecognized, truthy version tag 99. -/
def sampleBadVersionTuple : CompactAttestationShareablePackageObject :=
  { sampleLegacyTuple with offchainVersion := .val 99 }

/-! ### Helper lemmas: the lossy boundary and the decimal codec -/

theorem roundToDouble_of_safe {n : Nat} (h : n ≤ 2 ^ 53) : roundToDouble n = n := by
  unfold roundToDouble
  rw [if_pos h]

theorem jsNumberOfBigint_of_safe {i : Int} (h : |i| ≤ MAX_SAFE_INTEGER) :
    jsNumberOfBigint i = i := by
  have habs : (i.natAbs : Int) = |i| := Int.abs_eq_natAbs i ▸ rfl
  have hn : i.natAbs ≤ 2 ^ 53 := by
    have h' : (i.natAbs : Int) ≤ 2 ^ 53 - 1 := by rw [habs]; exact h
    omega
  unfold jsNumberOfBigint
  rw [roundToDouble_of_safe hn]
  split <;> omega

theorem decVal_leDigits : ∀ fuel n, n ≤ fuel → decVal (leDigits fuel n) = n := by
  intro fuel
  induction fuel with
  | zero => intro n hn; interval_cases n; rfl
  | succ k ih =>
    intro n hn
    by_cases h0 : n = 0
    · simp [leDigits, h0, decVal]
    · have hdiv : n / 10 ≤ k := by
        have : n / 10 < n := Nat.div_lt_self (Nat.pos_of_ne_zero h0) (by omega)
        omega
      simp only [leDigits, h0, if_false, decVal, ih _ hdiv]
      omega

theorem leDigits_lt : ∀ fuel n d, d ∈ leDigits fuel n → d < 10 := by
  intro fuel
  induction fuel with
  | zero => intro n d hd; simp [leDigits] at hd
  | succ k ih =>
    intro n d hd
    by_cases h0 : n = 0
    · simp [leDigits, h0] at hd
    · simp only [leDigits, h0, if_false, List.mem_cons] at hd
      rcases hd with hd | hd
      · omega
      · exact ih _ _ hd

theorem decDigitChar_toNat {d : Nat} (h : d < 10) : (decDigitChar d).toNat = 48 + d := by
  interval_cases d <;> decide

theorem decDigitChar_ne_minus {d : Nat} (h : d < 10) : decDigitChar d ≠ '-' := by
  interval_cases d <;> decide

theorem decNatOfChars_rev_map (L : List Nat) (h : ∀ d ∈ L, d < 10) :
    decNatOfChars (L.reverse.map decDigitChar) = decVal L := by
  unfold decNatOfChars
  rw [List.map_reverse, List.foldl_reverse]
  induction L with
  | nil => rfl
  | cons d t ih =>
    have hd : d < 10 := h d (List.mem_cons_self d t)
    have ht : ∀ x ∈ t, x < 10 := fun x hx => h x (List.mem_cons_of_mem d hx)
    simp only [List.map_cons, List.foldr_cons, ih ht, decVal, decDigitChar_toNat hd]
    omega

theorem jsBigIntOfString_mk_of_no_minus (l : List Char) (h : ∀ c ∈ l, c ≠ '-') :
    jsBigIntOfString (String.mk l) = (decNatOfChars l : Int) := by
  unfold jsBigIntOfString
  cases l with
  | nil => rfl
  | cons c rest =>
    have hc : c ≠ '-' := h c (List.mem_cons_self c rest)
    simp [hc, decNatOfChars]

theorem decStrOfNat_data_roundtrip (n : Nat) : decNatOfChars (decStrOfNat n).data = n := by
  unfold decStrOfNat
  by_cases h0 : n = 0
  · subst h0; decide
  · rw [if_neg h0]
    show decNatOfChars ((leDigits n n).reverse.map decDigitChar) = n
    rw [decNatOfChars_rev_map _ (fun d hd => leDigits_lt n n d hd)]
    exact decVal_leDigits n n le_rfl

theorem jsBigIntOfString_mk_minus (l : List Char) :
    jsBigIntOfString (String.mk ('-' :: l)) = -(decNatOfChars l : Int) := by
  rfl

theorem decStrOfNat_no_minus (n : Nat) : ∀ c ∈ (decStrOfNat n).data, c ≠ '-' := by
  unfold decStrOfNat
  by_cases h0 : n = 0
  · subst h0; decide
  · rw [if_neg h0]
    intro c hc
    obtain ⟨d, hd, rfl⟩ := List.mem_map.mp hc
    exact decDigitChar_ne_minus (leDigits_lt n n d (List.mem_reverse.mp hd))

theorem jsBigIntOfString_decStrOfBigint (i : Int) :
    jsBigIntOfString (decStrOfBigint i) = i := by
  unfold decStrOfBigint
  by_cases hneg : i < 0
  · rw [if_pos hneg, jsBigIntOfString_mk_minus, decStrOfNat_data_roundtrip i.natAbs]
    omega
  · rw [if_neg hneg]
    have hmk : decStrOfNat i.natAbs = String.mk (decStrOfNat i.natAbs).data := rfl
    rw [hmk, jsBigIntOfString_mk_of_no_minus _ (decStrOfNat_no_minus i.natAbs),
      decStrOfNat_data_roundtrip]
    omega

/-! ### The JSON value round trip of the wire form -/

theorem parseTuple_wireOf (c : CompactAttestationShareablePackageObject) :
    parseTuple (wireOf c) =
      { c with
        chainId := asBigintSlot (jsonOfBigintSlot c.chainId)
        offchainVersion := asOptInt (jsonOfOptInt c.offchainVersion)
        salt := asOptStr (jsonOfOptStr c.salt) } := by
  rfl

/-! ### Canonical packages -/

/-- A nested signed package in the canonical shape the decompactor produces:
its `types`/`primaryType`/`domain.name` are the ones the Version Registry
derives from its version tag, its message carries the version tag explicitly,
and its recipient/refUID are not the literal sentinel string `"0"` (a 20-byte
address or a 32-byte hash never is). -/
def IsCanonicalAttestation (a : SignedOffchainAttestation) : Prop :=
  attestTypesFor a.version = .ok a.types ∧
  a.message.version = .val a.version ∧
  a.domain.name = "EAS Attestation" ∧
  a.primaryType =
    (if a.version = OffchainAttestationVersion.Legacy then "Attestation" else "Attest") ∧
  a.message.recipient ≠ "0" ∧
  a.message.refUID ≠ "0"

theorem attestTypesFor_ok_cases {v : Int} {l : List TypedDataField}
    (h : attestTypesFor v = .ok l) :
    (v = 0 ∧ l = baseAttestTypes) ∨ (v = 1 ∧ l = versionField :: baseAttestTypes) ∨
      (v = 2 ∧ l = (versionField :: baseAttestTypes) ++ [saltField]) := by
  unfold attestTypesFor OffchainAttestationVersion.Legacy OffchainAttestationVersion.Version1
    OffchainAttestationVersion.Version2 at h
  split_ifs at h with h0 h1 h2 <;> simp_all

theorem sentinel_roundtrip {x z : String} (hx : x ≠ "0") :
    (if (if x = z then "0" else x) = "0" then z else (if x = z then "0" else x)) = x := by
  by_cases h : x = z <;> simp [h, hx]

/-! ### The claims -/

/-- C1 (amended): for every Legacy, V1, or V2 signed package in canonical
shape — `types`/`primaryType`/`domain.name` as the Version Registry dictates,
the message carrying its version tag explicitly, and recipient/refUID not the
literal string `"0"` — `decompact(compact(P))` reproduces `P` exactly,
provided the magnitudes of `time` and `expirationTime` do not exceed the
exact-integer-safe range.  (As stated the claim fails for a Legacy package
whose message predates the `version` field: decompaction stamps
`message.version` with the Legacy tag, see the counterexample.) -/
theorem claim1_roundtrip_canonical (a : SignedOffchainAttestation) (signer : String)
    (hc : IsCanonicalAttestation a)
    (ht : |a.message.time| ≤ MAX_SAFE_INTEGER)
    (he : |a.message.expirationTime| ≤ MAX_SAFE_INTEGER) :
    uncompactOffchainAttestationPackage
        (compactOffchainAttestationPackage { sig := .nested a, signer := signer }) =
      .ok { sig := .nested a, signer := signer } := by
  obtain ⟨htypes, hver, hname, hpt, hrec, href⟩ := hc
  obtain ⟨av, ⟨dn, dv, dci, dvc⟩, pt, tys, ⟨sr, ss, sv⟩, auid,
    ⟨mv, msch, mrec, mt, met, mrev, mref, md, msalt⟩⟩ := a
  dsimp only at htypes hver hname hpt hrec href ht he
  subst hver hname hpt
  have hts := jsNumberOfBigint_of_safe ht
  have hes := jsNumberOfBigint_of_safe he
  rcases attestTypesFor_ok_cases htypes with ⟨hv, hl⟩ | ⟨hv, hl⟩ | ⟨hv, hl⟩ <;>
    subst hv <;> subst hl <;>
    simp only [compactOffchainAttestationPackage, normalizedSig,
      uncompactOffchainAttestationPackage, resolveVersion, attestTypesFor,
      OffchainAttestationVersion.Legacy, OffchainAttestationVersion.Version1,
      OffchainAttestationVersion.Version2, jsBigInt, hts, hes,
      sentinel_roundtrip hrec, sentinel_roundtrip href] <;> norm_num

/-- C1 (counterexample): the claim as stated fails on a Legacy signed package
whose message predates the `version` field: even with tiny time values the
round trip is not exact, because decompaction stamps `message.version` with
the Legacy tag (`undefined` becomes `0`). -/
theorem claim1_exact_roundtrip_fails_for_legacy :
    uncompactOffchainAttestationPackage (compactOffchainAttestationPackage legacyPackage) ≠
      Except.ok legacyPackage := by
  decide

/-- C1 (witness): the amended round trip at a concrete canonical V1 package. -/
theorem claim1_roundtrip_canonical_witness :
    uncompactOffchainAttestationPackage (compactOffchainAttestationPackage
        { sig := .nested canonicalV1Attestation, signer := sampleSigner }) =
      Except.ok { sig := .nested canonicalV1Attestation, signer := sampleSigner } :=
  claim1_roundtrip_canonical canonicalV1Attestation sampleSigner
    ⟨by decide, by decide, by decide, by decide, by decide, by decide⟩ (by decide) (by decide)

/-- C2: compact substitutes the sentinel string `"0"` for a recipient equal
to the zero address (tuple slot 9) and for a refUID equal to the zero hash
(tuple slot 12); decompact maps `"0"` in those slots back to exactly the
zero-address and zero-hash constants. -/
theorem claim2_sentinel_substitution (pkg : AttestationShareablePackageObject)
    (t : CompactAttestationShareablePackageObject) (p : AttestationShareablePackageObject) :
    ((packageMessage pkg).recipient = ZeroAddress →
      (compactOffchainAttestationPackage pkg).recipient = "0") ∧
    ((packageMessage pkg).refUID = ZeroHash →
      (compactOffchainAttestationPackage pkg).refUID = "0") ∧
    (uncompactOffchainAttestationPackage t = .ok p →
      (t.recipient = "0" → ∃ a, p.sig = .nested a ∧ a.message.recipient = ZeroAddress) ∧
      (t.refUID = "0" → ∃ a, p.sig = .nested a ∧ a.message.refUID = ZeroHash)) := by
  have hdec : uncompactOffchainAttestationPackage t = .ok p →
      ∃ a, p.sig = .nested a ∧
        a.message.recipient = (if t.recipient = "0" then ZeroAddress else t.recipient) ∧
        a.message.refUID = (if t.refUID = "0" then ZeroHash else t.refUID) := by
    intro h
    rcases hm : attestTypesFor (resolveVersion t.offchainVersion) with e | l
    · simp [uncompactOffchainAttestationPackage, hm] at h
    · simp only [uncompactOffchainAttestationPackage, hm, Except.ok.injEq] at h
      subst h
      exact ⟨_, rfl, rfl, rfl⟩
  refine ⟨fun h => ?_, fun h => ?_, fun h => ?_⟩
  · simp only [packageMessage] at h
    simp [compactOffchainAttestationPackage, h]
  · simp only [packageMessage] at h
    simp [compactOffchainAttestationPackage, h]
  · obtain ⟨a, hsig, hrec, href⟩ := hdec h
    exact ⟨fun hr => ⟨a, hsig, by rw [hrec, if_pos hr]⟩,
      fun hu => ⟨a, hsig, by rw [href, if_pos hu]⟩⟩

/-- C2 (witness): the sentinel substitution at a concrete zero-valued Legacy
package / tuple. -/
theorem claim2_sentinel_substitution_witness :
    (compactOffchainAttestationPackage legacyPackage).recipient = "0" ∧
    (compactOffchainAttestationPackage legacyPackage).refUID = "0" ∧
    (∃ a, sampleLegacyDecoded.sig = .nested a ∧ a.message.recipient = ZeroAddress) ∧
    (∃ a, sampleLegacyDecoded.sig = .nested a ∧ a.message.refUID = ZeroHash) := by
  obtain ⟨h1, h2, h3⟩ :=
    claim2_sentinel_substitution legacyPackage sampleLegacyTuple sampleLegacyDecoded
  obtain ⟨h4, h5⟩ := h3 (by decide)
  exact ⟨h1 (by decide), h2 (by decide), h4 (by decide), h5 (by decide)⟩

/-- C3: a tuple whose slot 16 is truthy but not one of the recognized version
tags fails decompaction with a fatal error whose message includes the
offending value; there is no retry or recovery (the call is terminal). -/
theorem claim3_unsupported_version_error (t : CompactAttestationShareablePackageObject)
    (n : Int) (hslot : t.offchainVersion = .val n) (h0 : n ≠ 0) (h1 : n ≠ 1) (h2 : n ≠ 2) :
    uncompactOffchainAttestationPackage t = .error ("Unsupported version: " ++ toString n) ∧
      ∃ pre post, "Unsupported version: " ++ toString n = pre ++ toString n ++ post := by
  have hres : resolveVersion t.offchainVersion = n := by
    rw [hslot]
    simp [resolveVersion, h0]
  have htf : attestTypesFor n = .error ("Unsupported version: " ++ toString n) := by
    unfold attestTypesFor OffchainAttestationVersion.Legacy OffchainAttestationVersion.Version1
      OffchainAttestationVersion.Version2
    rw [if_neg h0, if_neg h1, if_neg h2]
  refine ⟨?_, "Unsupported version: ", "", by simp⟩
  simp [uncompactOffchainAttestationPackage, hres, htf]

/-- C3 (witness): slot 16 equal to 99 yields the fatal error whose message
contains `99`. -/
theorem claim3_unsupported_version_error_witness :
    uncompactOffchainAttestationPackage sampleBadVersionTuple =
        .error ("Unsupported version: " ++ toString (99 : Int)) ∧
      ∃ pre post,
        "Unsupported version: " ++ toString (99 : Int) = pre ++ toString (99 : Int) ++ post :=
  claim3_unsupported_version_error sampleBadVersionTuple 99 (by decide) (by decide) (by decide)
    (by decide)

/-- C4: a tuple whose slot 16 is absent or falsy decodes with version equal
to the Legacy tag, primaryType `"Attestation"`, and the unmodified 7-field
base `Attest` field list. -/
theorem claim4_falsy_version_legacy (t : CompactAttestationShareablePackageObject)
    (hf : t.offchainVersion.truthy = false) :
    ∃ a, uncompactOffchainAttestationPackage t = .ok { sig := .nested a, signer := t.signer } ∧
      a.version = OffchainAttestationVersion.Legacy ∧
      a.primaryType = "Attestation" ∧
      a.types = [{ name := "schema", type := "bytes32" },
        { name := "recipient", type := "address" }, { name := "time", type := "uint64" },
        { name := "expirationTime", type := "uint64" }, { name := "revocable", type := "bool" },
        { name := "refUID", type := "bytes32" }, { name := "data", type := "bytes" }] := by
  have hres : resolveVersion t.offchainVersion = 0 := by
    cases hv : t.offchainVersion with
    | undef => rfl
    | null => rfl
    | val n =>
      rw [hv] at hf
      simp [JsOpt.truthy] at hf
      simp [resolveVersion, hf, OffchainAttestationVersion.Legacy]
  have hmain : uncompactOffchainAttestationPackage t = .ok
      { sig := .nested
          { version := 0
            domain :=
              { name := "EAS Attestation"
                version := t.contractVersion
                chainId := jsBigInt t.chainId
                verifyingContract := t.verifyingContract }
            primaryType := "Attestation"
            types := baseAttestTypes
            signature := { r := t.r, s := t.s, v := t.v }
            uid := t.uid
            message :=
              { version := .val 0
                schema := t.schema
                recipient := if t.recipient = "0" then ZeroAddress else t.recipient
                time := t.time
                expirationTime := t.expirationTime
                revocable := t.revocable
                refUID := if t.refUID = "0" then ZeroHash else t.refUID
                data := t.data
                salt := t.salt } }
        signer := t.signer } := by
    simp [uncompactOffchainAttestationPackage, hres, attestTypesFor,
      OffchainAttestationVersion.Legacy]
  exact ⟨_, hmain, rfl, rfl, rfl⟩

/-- C4 (witness): the Legacy decode of a concrete tuple with absent slot 16. -/
theorem claim4_falsy_version_legacy_witness :
    ∃ a, uncompactOffchainAttestationPackage sampleLegacyTuple =
        .ok { sig := .nested a, signer := sampleLegacyTuple.signer } ∧
      a.version = OffchainAttestationVersion.Legacy ∧
      a.primaryType = "Attestation" ∧
      a.types = [{ name := "schema", type := "bytes32" },
        { name := "recipient", type := "address" }, { name := "time", type := "uint64" },
        { name := "expirationTime", type := "uint64" }, { name := "revocable", type := "bool" },
        { name := "refUID", type := "bytes32" }, { name := "data", type := "bytes" }] :=
  claim4_falsy_version_legacy sampleLegacyTuple (by decide)

/-- C5: a tuple whose slot 16 equals the V2 tag decodes to a 9-field `Attest`
schema (leading version field, the 7 base fields, trailing salt field),
primaryType `"Attest"`, and `message.salt` equal to tuple slot 17 unchanged. -/
theorem claim5_v2_schema (t : CompactAttestationShareablePackageObject)
    (hv : t.offchainVersion = .val OffchainAttestationVersion.Version2) :
    ∃ a, uncompactOffchainAttestationPackage t = .ok { sig := .nested a, signer := t.signer } ∧
      a.types = [{ name := "version", type := "uint16" }, { name := "schema", type := "bytes32" },
        { name := "recipient", type := "address" }, { name := "time", type := "uint64" },
        { name := "expirationTime", type := "uint64" }, { name := "revocable", type := "bool" },
        { name := "refUID", type := "bytes32" }, { name := "data", type := "bytes" },
        { name := "salt", type := "bytes32" }] ∧
      a.primaryType = "Attest" ∧
      a.message.salt = t.salt ∧
      a.message.version = .val OffchainAttestationVersion.Version2 := by
  have hres : resolveVersion t.offchainVersion = 2 := by rw [hv]; rfl
  have hmain : uncompactOffchainAttestationPackage t = .ok
      { sig := .nested
          { version := 2
            domain :=
              { name := "EAS Attestation"
                version := t.contractVersion
                chainId := jsBigInt t.chainId
                verifyingContract := t.verifyingContract }
            primaryType := "Attest"
            types := (versionField :: baseAttestTypes) ++ [saltField]
            signature := { r := t.r, s := t.s, v := t.v }
            uid := t.uid
            message :=
              { version := .val 2
                schema := t.schema
                recipient := if t.recipient = "0" then ZeroAddress else t.recipient
                time := t.time
                expirationTime := t.expirationTime
                revocable := t.revocable
                refUID := if t.refUID = "0" then ZeroHash else t.refUID
                data := t.data
                salt := t.salt } }
        signer := t.signer } := by
    simp [uncompactOffchainAttestationPackage, hres, attestTypesFor,
      OffchainAttestationVersion.Legacy, OffchainAttestationVersion.Version1,
      OffchainAttestationVersion.Version2]
  exact ⟨_, hmain, rfl, rfl, rfl, rfl⟩

/-- C5 (witness): the V2 decode of a concrete tuple carrying a salt. -/
theorem claim5_v2_schema_witness :
    ∃ a, uncompactOffchainAttestationPackage sampleV2Tuple =
        .ok { sig := .nested a, signer := sampleV2Tuple.signer } ∧
      a.types = [{ name := "version", type := "uint16" }, { name := "schema", type := "bytes32" },
        { name := "recipient", type := "address" }, { name := "time", type := "uint64" },
        { name := "expirationTime", type := "uint64" }, { name := "revocable", type := "bool" },
        { name := "refUID", type := "bytes32" }, { name := "data", type := "bytes" },
        { name := "salt", type := "bytes32" }] ∧
      a.primaryType = "Attest" ∧
      a.message.salt = sampleV2Tuple.salt ∧
      a.message.version = .val OffchainAttestationVersion.Version2 :=
  claim5_v2_schema sampleV2Tuple (by decide)

/-- C6 (counterexample): a package accepted by `isSignedOffchainAttestationV1`
(top-level `v`/`r`/`s`) whose message carries no `version` field compacts to a
tuple whose slot 16 is NOT the V1 tag — slot 16 is `sig.message.version`, not
the tag the adapter stamps at the top level. -/
theorem claim6_flat_slot16_not_v1 :
    isSignedOffchainAttestationV1 (.flat flatNoVersionAttestation) = true ∧
    (compactOffchainAttestationPackage
        { sig := .flat flatNoVersionAttestation, signer := sampleSigner }).offchainVersion ≠
      .val OffchainAttestationVersion.Version1 := by
  decide

/-- C6 (amended): compacting a flat package first applies the Legacy-Adapter
normalization — a nested object with `version` set to the V1 tag and
`signature = {r, s, v}`, all other fields preserved unchanged — and the
resulting tuple's slot 16 equals the flat package's `message.version`, which
is the V1 tag exactly when the message itself carries the V1 tag (as genuine
V1-era packages do). -/
theorem claim6_flat_normalization (f : SignedOffchainAttestationV1) (signer : String) :
    (convertV1AttestationToV2 f).version = OffchainAttestationVersion.Version1 ∧
    (convertV1AttestationToV2 f).signature = { r := f.r, s := f.s, v := f.v } ∧
    (convertV1AttestationToV2 f).domain = f.domain ∧
    (convertV1AttestationToV2 f).primaryType = f.primaryType ∧
    (convertV1AttestationToV2 f).types = f.types ∧
    (convertV1AttestationToV2 f).uid = f.uid ∧
    (convertV1AttestationToV2 f).message = f.message ∧
    compactOffchainAttestationPackage { sig := .flat f, signer := signer } =
      compactOffchainAttestationPackage
        { sig := .nested (convertV1AttestationToV2 f), signer := signer } ∧
    (compactOffchainAttestationPackage { sig := .flat f, signer := signer }).offchainVersion =
      f.message.version ∧
    (f.message.version = .val OffchainAttestationVersion.Version1 →
      (compactOffchainAttestationPackage
          { sig := .flat f, signer := signer }).offchainVersion =
        .val OffchainAttestationVersion.Version1) :=
  ⟨rfl, rfl, rfl, rfl, rfl, rfl, rfl, rfl, rfl, fun h => h⟩

/-- C6 (witness): a concrete flat package whose message carries the V1 tag
compacts to a tuple whose slot 16 is the V1 tag. -/
theorem claim6_flat_normalization_witness :
    (compactOffchainAttestationPackage
        { sig := .flat flatV1Attestation, signer := sampleSigner }).offchainVersion =
      .val OffchainAttestationVersion.Version1 :=
  (claim6_flat_normalization flatV1Attestation sampleSigner).2.2.2.2.2.2.2.2.2 (by decide)

/-- C7 (counterexample): the full pipeline round trip fails even on a Legacy
package with an explicit version tag and safe time values, because JSON
serialization turns the `undefined` salt slot into `null`: the decoded
package's `message.salt` is `null`, the original's is absent. -/
theorem claim7_pipeline_not_exact_for_undefined_salt :
    decodeBase64ZippedBase64 (fun l => l)
        (zipAndEncodeToBase64 (fun l => l)
          { sig := .nested canonicalLegacyAttestation, signer := sampleSigner }) ≠
      .ok { sig := .nested canonicalLegacyAttestation, signer := sampleSigner } := by
  decide

/-- C7 (amended): the full pipeline round trip
`decodeFromText(encodeToText(P)) = P` — with the external deflate+base64
stage abstracted as any mutually inverse pair — holds for every canonical
package within the documented lossy time boundary whose `message.salt` is not
`undefined` (JSON serialization maps `undefined` to `null`, so an absent salt
does not survive; a present or explicitly `null` salt does). -/
theorem claim7_pipeline_roundtrip_canonical {α : Type}
    (enc : List Json → α) (dec : α → List Json) (hinv : ∀ l, dec (enc l) = l)
    (a : SignedOffchainAttestation) (signer : String)
    (hc : IsCanonicalAttestation a)
    (hsalt : a.message.salt ≠ .undef)
    (ht : |a.message.time| ≤ MAX_SAFE_INTEGER)
    (he : |a.message.expirationTime| ≤ MAX_SAFE_INTEGER) :
    decodeBase64ZippedBase64 dec
        (zipAndEncodeToBase64 enc { sig := .nested a, signer := signer }) =
      .ok { sig := .nested a, signer := signer } := by
  unfold decodeBase64ZippedBase64 zipAndEncodeToBase64
  rw [hinv, parseTuple_wireOf]
  obtain ⟨htypes, hver, hname, hpt, hrec, href⟩ := hc
  obtain ⟨av, ⟨dn, dv, dci, dvc⟩, pt, tys, ⟨sr, ss, sv⟩, auid,
    ⟨mv, msch, mrec, mt, met, mrev, mref, md, msalt⟩⟩ := a
  dsimp only at htypes hver hname hpt hrec href ht he hsalt
  subst hver hname hpt
  have hts := jsNumberOfBigint_of_safe ht
  have hes := jsNumberOfBigint_of_safe he
  have hchain := jsBigIntOfString_decStrOfBigint dci
  rcases attestTypesFor_ok_cases htypes with ⟨hv, hl⟩ | ⟨hv, hl⟩ | ⟨hv, hl⟩ <;>
    subst hv <;> subst hl <;>
    rcases msalt with _ | _ | s₀ <;>
    first
      | exact absurd rfl hsalt
      | (simp only [compactOffchainAttestationPackage, normalizedSig,
          uncompactOffchainAttestationPackage, resolveVersion, attestTypesFor,
          OffchainAttestationVersion.Legacy, OffchainAttestationVersion.Version1,
          OffchainAttestationVersion.Version2, jsBigInt, jsonOfBigintSlot, asBigintSlot,
          jsonOfOptInt, asOptInt, jsonOfOptStr, asOptStr, hts, hes, hchain,
          sentinel_roundtrip hrec, sentinel_roundtrip href]
         norm_num)

/-- C7 (witness): the identity codec instantiation at a concrete canonical V2
package (salt present). -/
theorem claim7_pipeline_roundtrip_canonical_witness :
    decodeBase64ZippedBase64 (fun l => l)
        (zipAndEncodeToBase64 (fun l => l)
          { sig := .nested canonicalV2Attestation, signer := sampleSigner }) =
      .ok { sig := .nested canonicalV2Attestation, signer := sampleSigner } :=
  claim7_pipeline_roundtrip_canonical (fun l => l) (fun l => l) (fun _ => rfl)
    canonicalV2Attestation sampleSigner
    ⟨by decide, by decide, by decide, by decide, by decide, by decide⟩
    (by decide) (by decide) (by decide)

/-- C8 (counterexample): wire slot 1 carries the integer 1 — far inside the
safe-integer range — as the decimal string `"1"`: the stringify rule keys on
the `bigint` type of the chainId slot, not on the integer's magnitude. -/
theorem claim8_small_chainid_serialized_as_string :
    (wireOf (compactOffchainAttestationPackage legacyPackage)).getD 1 .null = .str "1" ∧
      ¬ MAX_SAFE_INTEGER < 1 := by
  decide

/-- C8 (amended): the numeric-to-string rule of the serialized wire form is
type-keyed, not magnitude-keyed: the bigint-typed chainId slot is always a
decimal string, regardless of magnitude, while the number-typed slots (v,
time, expirationTime, reserved, and a present version tag) are JSON numbers
even when their value lies beyond the safe-integer range. -/
theorem claim8_wire_string_rule_is_type_based (pkg : AttestationShareablePackageObject) :
    wireOf (compactOffchainAttestationPackage pkg) =
      [.str (normalizedSig pkg.sig).domain.version,
       .str (decStrOfBigint (normalizedSig pkg.sig).domain.chainId),
       .str (normalizedSig pkg.sig).domain.verifyingContract,
       .str (normalizedSig pkg.sig).signature.r,
       .str (normalizedSig pkg.sig).signature.s,
       .num (normalizedSig pkg.sig).signature.v,
       .str pkg.signer,
       .str (normalizedSig pkg.sig).uid,
       .str (packageMessage pkg).schema,
       .str (if (packageMessage pkg).recipient = ZeroAddress then "0"
         else (packageMessage pkg).recipient),
       .num (jsNumberOfBigint (packageMessage pkg).time),
       .num (jsNumberOfBigint (packageMessage pkg).expirationTime),
       .str (if (packageMessage pkg).refUID = ZeroHash then "0"
         else (packageMessage pkg).refUID),
       .bool (packageMessage pkg).revocable,
       .str (packageMessage pkg).data,
       .num 0,
       jsonOfOptInt (packageMessage pkg).version,
       jsonOfOptStr (packageMessage pkg).salt] :=
  rfl

/-- C9: every tuple accepted by the decompactor yields a package whose
`message.version` equals the resolved version tag and equals `sig.version`;
in particular a Legacy tuple (absent slot 16) produces a message that has
acquired `version` equal to the Legacy tag. -/
theorem claim9_version_stamping (t : CompactAttestationShareablePackageObject)
    (p : AttestationShareablePackageObject)
    (h : uncompactOffchainAttestationPackage t = .ok p) :
    ∃ a, p.sig = .nested a ∧ a.message.version = .val a.version ∧
      a.version = resolveVersion t.offchainVersion ∧
      (t.offchainVersion = .undef →
        a.version = OffchainAttestationVersion.Legacy ∧
        a.message.version = .val OffchainAttestationVersion.Legacy) := by
  rcases hm : attestTypesFor (resolveVersion t.offchainVersion) with e | l
  · simp [uncompactOffchainAttestationPackage, hm] at h
  · simp only [uncompactOffchainAttestationPackage, hm, Except.ok.injEq] at h
    subst h
    refine ⟨_, rfl, rfl, rfl, fun hu => ⟨?_, ?_⟩⟩
    · show resolveVersion t.offchainVersion = _
      rw [hu]
      rfl
    · show JsOpt.val (resolveVersion t.offchainVersion) = _
      rw [hu]
      rfl

/-- C9 (witness): the version stamping at a concrete Legacy tuple whose
decompaction is written out in full. -/
theorem claim9_version_stamping_witness :
    ∃ a, sampleLegacyDecoded.sig = .nested a ∧ a.message.version = .val a.version ∧
      a.version = resolveVersion sampleLegacyTuple.offchainVersion ∧
      (sampleLegacyTuple.offchainVersion = .undef →
        a.version = OffchainAttestationVersion.Legacy ∧
        a.message.version = .val OffchainAttestationVersion.Legacy) :=
  claim9_version_stamping sampleLegacyTuple sampleLegacyDecoded (by decide)

theorem uncompact_of_falsy_version (t : CompactAttestationShareablePackageObject)
    (hres : resolveVersion t.offchainVersion = 0) :
    uncompactOffchainAttestationPackage t = .ok
      { sig := .nested
          { version := 0
            domain :=
              { name := "EAS Attestation"
                version := t.contractVersion
                chainId := jsBigInt t.chainId
                verifyingContract := t.verifyingContract }
            primaryType := "Attestation"
            types := baseAttestTypes
            signature := { r := t.r, s := t.s, v := t.v }
            uid := t.uid
            message :=
              { version := .val 0
                schema := t.schema
                recipient := if t.recipient = "0" then ZeroAddress else t.recipient
                time := t.time
                expirationTime := t.expirationTime
                revocable := t.revocable
                refUID := if t.refUID = "0" then ZeroHash else t.refUID
                data := t.data
                salt := t.salt } }
        signer := t.signer } := by
  simp [uncompactOffchainAttestationPackage, hres, attestTypesFor,
    OffchainAttestationVersion.Legacy]

/-- C10: for a package whose message lacks both the `version` and `salt`
fields, serialization emits `null` in wire slots 16 and 17; on decode the
`null` slot 16 is falsy and still resolves to Legacy, and the decoded
package's `message.salt` is `null` rather than absent. -/
theorem claim10_undefined_slots_become_null {α : Type}
    (enc : List Json → α) (dec : α → List Json) (hinv : ∀ l, dec (enc l) = l)
    (pkg : AttestationShareablePackageObject)
    (hv : (packageMessage pkg).version = .undef)
    (hs : (packageMessage pkg).salt = .undef) :
    (wireOf (compactOffchainAttestationPackage pkg)).getD 16 .null = Json.null ∧
    (wireOf (compactOffchainAttestationPackage pkg)).getD 17 .null = Json.null ∧
    ∃ a, decodeBase64ZippedBase64 dec (zipAndEncodeToBase64 enc pkg) =
        .ok { sig := .nested a, signer := pkg.signer } ∧
      a.version = OffchainAttestationVersion.Legacy ∧
      a.message.version = .val OffchainAttestationVersion.Legacy ∧
      a.message.salt = .null := by
  have hv' : (compactOffchainAttestationPackage pkg).offchainVersion = .undef := hv
  have hs' : (compactOffchainAttestationPackage pkg).salt = .undef := hs
  refine ⟨?_, ?_, ?_⟩
  · show jsonOfOptInt (compactOffchainAttestationPackage pkg).offchainVersion = Json.null
    rw [hv']
    rfl
  · show jsonOfOptStr (compactOffchainAttestationPackage pkg).salt = Json.null
    rw [hs']
    rfl
  · unfold decodeBase64ZippedBase64 zipAndEncodeToBase64
    rw [hinv, parseTuple_wireOf, hv', hs']
    exact ⟨_, uncompact_of_falsy_version _ rfl, rfl, rfl, rfl⟩

/-- C10 (witness): the identity codec instantiation at the concrete Legacy
package whose message predates `version` and `salt`. -/
theorem claim10_undefined_slots_become_null_witness :
    (wireOf (compactOffchainAttestationPackage legacyPackage)).getD 16 .null = Json.null ∧
    (wireOf (compactOffchainAttestationPackage legacyPackage)).getD 17 .null = Json.null ∧
    ∃ a, decodeBase64ZippedBase64 (fun l => l)
          (zipAndEncodeToBase64 (fun l => l) legacyPackage) =
        .ok { sig := .nested a, signer := legacyPackage.signer } ∧
      a.version = OffchainAttestationVersion.Legacy ∧
      a.message.version = .val OffchainAttestationVersion.Legacy ∧
      a.message.salt = .null :=
  claim10_undefined_slots_become_null (fun l => l) (fun l => l) (fun _ => rfl) legacyPackage
    (by decide) (by decide)
